import Mathlib

/-
Verification development for the AtomicSeats seat-reservation service.

The definitions below are a shallow embedding of the Python source:
  * src/models.py            — the data model (SeatStatus, Seat, Hold, Booking)
  * src/database_manager.py  — the engine operations (hold_seats, book_hold,
                               release_hold, _cleanup_hold, cleanup_expired_holds,
                               get_seat_status, reset_all_seats, initialize_show)
  * src/app.py               — the HTTP boundary (duration parsing/clamping and
                               the status-code mapping of the hold endpoint)

Conventions of the embedding:
  * Database state is a record of four tables (lists).  The order of the
    `seats` list is the store's row/scan order: an SQLAlchemy query without
    `order_by` returns (and `with_for_update` locks) rows in that order.
  * Timestamps are `Int` (UTC instants of arbitrary resolution).  Every
    `datetime.now(timezone.utc)` read in the source becomes an explicit `Int`
    parameter; in particular `book_hold` performs two distinct clock reads —
    one at function entry (line 149 of database_manager.py) and one when the
    ORM column default of `Booking.booked_at` fires at row insertion
    (line 70 of models.py) — so it takes two time parameters.
  * `uuid.uuid4()` is an injected fresh identifier parameter (`Nat`).
  * Python `(ok, dict)` results become `Except`-style sums plus the new state.
-/

namespace AtomicSeats

/-- SeatStatus enum from src/models.py: AVAILABLE / HELD / BOOKED. -/
inductive SeatStatus where
  | AVAILABLE
  | HELD
  | BOOKED
deriving DecidableEq, Repr

/-- Wire serialization of the enum (`SeatStatus.value` in Python). -/
def SeatStatus.value : SeatStatus → String
  | .AVAILABLE => "available"
  | .HELD => "held"
  | .BOOKED => "booked"

/-- Seat row from src/models.py: PK (show_id, seat_id), status, optional
hold_id and hold_expires_at. -/
structure Seat where
  show_id : String
  seat_id : String
  status : SeatStatus
  hold_id : Option Nat
  hold_expires_at : Option Int
deriving DecidableEq, Repr

/-- Hold row from src/models.py: PK hold_id, owning show, covered seats,
expiry instant. -/
structure Hold where
  hold_id : Nat
  show_id : String
  seat_ids : List String
  expires_at : Int
deriving DecidableEq, Repr

/-- Booking row from src/models.py: PK booking_id, owning show, covered
seats, and booked_at (filled by the ORM column default at insertion). -/
structure Booking where
  booking_id : Nat
  show_id : String
  seat_ids : List String
  booked_at : Int
deriving DecidableEq, Repr

/-- The four persisted tables.  `shows` keeps only the primary keys (the
created_at column plays no role in any operation).  List order of `seats`
is the store's scan order, the order in which an unordered query returns
and locks rows. -/
structure DBState where
  shows : List String
  seats : List Seat
  holds : List Hold
  bookings : List Booking
deriving DecidableEq, Repr

/-- The row filter `Seat.show_id == show_id, Seat.seat_id.in_(seat_ids)`
used by hold_seats (lines 92-95, 105-108) and book_hold (lines 179-182). -/
def seatMatches (sid : String) (seat_ids : List String) (s : Seat) : Bool :=
  s.show_id == sid && seat_ids.contains s.seat_id

/-- Errors of DatabaseManager.hold_seats with their literal error strings. -/
inductive HoldError where
  | showNotFound
  | invalidSeatIds
  | duplicateSeats
  | seatsUnavailable (unavailable_seats : List String)
deriving DecidableEq, Repr

/-- The "error" field of the dict returned on each hold_seats failure. -/
def HoldError.message : HoldError → String
  | .showNotFound => "show not found"
  | .invalidSeatIds => "invalid seat ID(s)"
  | .duplicateSeats => "duplicate seats in request"
  | .seatsUnavailable _ => "seats unavailable"

/-- Success payload of hold_seats: hold_id, expires_at, the request's
seat_ids list. -/
structure HoldSuccess where
  hold_id : Nat
  expires_at : Int
  seat_ids : List String
deriving DecidableEq, Repr

/-- DatabaseManager.hold_seats (src/database_manager.py lines 74-145).
`now` is the single clock read at entry, `freshId` the uuid4 value.
Steps in source order: show existence, seat-count validation, duplicate
check, lock and availability check, hold insertion, seat updates. -/
def hold_seats (st : DBState) (sid : String) (seat_ids : List String)
    (hold_duration_sec : Int) (now : Int) (freshId : Nat) :
    Except HoldError HoldSuccess × DBState :=
  let expires_at := now + hold_duration_sec
  if !(st.shows.contains sid) then
    (.error .showNotFound, st)
  else
    let valid_seat_count := (st.seats.filter (seatMatches sid seat_ids)).length
    if valid_seat_count != seat_ids.length then
      (.error .invalidSeatIds, st)
    else if seat_ids.length != seat_ids.dedup.length then
      (.error .duplicateSeats, st)
    else
      let locked_seats := st.seats.filter (seatMatches sid seat_ids)
      let unavailable :=
        (locked_seats.filter (fun s => s.status != SeatStatus.AVAILABLE)).map (·.seat_id)
      if unavailable != [] then
        (.error (.seatsUnavailable unavailable), st)
      else
        let hold : Hold := ⟨freshId, sid, seat_ids, expires_at⟩
        let seats' := st.seats.map (fun s =>
          if seatMatches sid seat_ids s then
            { s with status := SeatStatus.HELD,
                     hold_id := some freshId,
                     hold_expires_at := some expires_at }
          else s)
        (.ok ⟨freshId, expires_at, seat_ids⟩,
         { st with seats := seats', holds := st.holds ++ [hold] })

/-- The hold lookup of book_hold / release_hold:
`query(Hold).filter(Hold.hold_id == hold_id, Hold.show_id == show_id).first()`. -/
def findHold (holds : List Hold) (hid : Nat) (sid : String) : Option Hold :=
  holds.find? (fun h => h.hold_id == hid && h.show_id == sid)

/-- DatabaseManager._cleanup_hold (lines 235-252): reset every seat of the
hold's show whose seat_id is listed by the hold and whose hold_id still
equals the hold's id, then delete the hold row (by its primary key). -/
def cleanup_hold (st : DBState) (h : Hold) : DBState :=
  { st with
    seats := st.seats.map (fun s =>
      if s.show_id == h.show_id && h.seat_ids.contains s.seat_id &&
         s.hold_id == some h.hold_id then
        { s with status := SeatStatus.AVAILABLE,
                 hold_id := none,
                 hold_expires_at := none }
      else s),
    holds := st.holds.eraseP (fun g => g.hold_id == h.hold_id) }

/-- Errors of DatabaseManager.book_hold with their literal error strings. -/
inductive BookError where
  | holdNotFound
  | holdExpired
  | holdInvalidated
deriving DecidableEq, Repr

/-- The "error" field of the dict returned on each book_hold failure. -/
def BookError.message : BookError → String
  | .holdNotFound => "hold not found or expired"
  | .holdExpired => "hold expired"
  | .holdInvalidated => "hold invalidated (seat state mismatch)"

/-- Success payload of book_hold: booking_id, seat_ids, booked_at as
returned in the response dict. -/
structure BookSuccess where
  booking_id : Nat
  seat_ids : List String
  booked_at : Int
deriving DecidableEq, Repr

/-- DatabaseManager.book_hold (lines 147-214).  `now` is the clock read at
function entry (line 149); `insertedAt` is the clock read performed by the
ORM default of Booking.booked_at when the new row is flushed (models.py
line 70).  The live path returns `now` in the response but stores
`insertedAt` in the row; the idempotent-replay path returns the stored
row's booked_at. -/
def book_hold (st : DBState) (sid : String) (hid : Nat)
    (now : Int) (insertedAt : Int) : Except BookError BookSuccess × DBState :=
  match findHold st.holds hid sid with
  | none =>
    match st.bookings.find? (fun b => b.booking_id == hid && b.show_id == sid) with
    | some b => (.ok ⟨b.booking_id, b.seat_ids, b.booked_at⟩, st)
    | none => (.error .holdNotFound, st)
  | some hold =>
    if hold.expires_at ≤ now then
      (.error .holdExpired, cleanup_hold st hold)
    else
      let locked_seats := st.seats.filter (seatMatches sid hold.seat_ids)
      if locked_seats.any (fun s =>
          s.status != SeatStatus.HELD || s.hold_id != some hold.hold_id) then
        (.error .holdInvalidated, st)
      else
        let booking : Booking := ⟨hold.hold_id, sid, hold.seat_ids, insertedAt⟩
        let seats' := st.seats.map (fun s =>
          if seatMatches sid hold.seat_ids s then
            { s with status := SeatStatus.BOOKED,
                     hold_id := none,
                     hold_expires_at := none }
          else s)
        (.ok ⟨hold.hold_id, hold.seat_ids, now⟩,
         { st with seats := seats',
                   holds := st.holds.eraseP (fun g => g.hold_id == hold.hold_id),
                   bookings := st.bookings ++ [booking] })

/-- DatabaseManager.release_hold (lines 216-233): locate the hold, run
_cleanup_hold; returns False when the hold is absent. -/
def release_hold (st : DBState) (sid : String) (hid : Nat) : Bool × DBState :=
  match findHold st.holds hid sid with
  | none => (false, st)
  | some h => (true, cleanup_hold st h)

/-- DatabaseManager.cleanup_expired_holds (lines 254-277), the reaper body:
select all holds with expires_at ≤ now, _cleanup_hold each, return the
count. -/
def cleanup_expired_holds (st : DBState) (now : Int) : Nat × DBState :=
  let expired := st.holds.filter (fun h => h.expires_at ≤ now)
  (expired.length, expired.foldl (fun acc h => cleanup_hold acc h) st)

/-- DatabaseManager.initialize_show (lines 47-72): create the show and its
seats (all AVAILABLE) unless the show already exists. -/
def initialize_show (st : DBState) (sid : String) (seat_ids : List String) :
    (Bool × String) × DBState :=
  if st.shows.contains sid then
    ((false, "show already exists"), st)
  else
    ((true, "show initialized with " ++ toString seat_ids.length ++ " seats"),
     { st with shows := st.shows ++ [sid],
               seats := st.seats ++ seat_ids.map (fun seat =>
                 ⟨sid, seat, SeatStatus.AVAILABLE, none, none⟩) })

/-- Per-seat entry of the get_seat_status payload; `hold_expires_at` is
included only for HELD seats that carry an expiry. -/
structure SeatDetail where
  seat_id : String
  status : String
  hold_expires_at : Option Int
deriving DecidableEq, Repr

/-- The dict returned by DatabaseManager.get_seat_status on success. -/
structure SeatStatusPayload where
  total_seats : Nat
  available_seats : Nat
  held_seats : Nat
  booked_seats : Nat
  seats : List SeatDetail
  invariants_valid : Bool
deriving DecidableEq, Repr

/-- DatabaseManager.get_seat_status (lines 279-329): None when the show is
absent; otherwise per-status counts (group_by), per-seat details, and
total_seats computed as the sum of the three counts; invariants_valid is
the literal True. -/
def get_seat_status (st : DBState) (sid : String) : Option SeatStatusPayload :=
  if !(st.shows.contains sid) then none
  else
    let showSeats := st.seats.filter (fun s => s.show_id == sid)
    let avail := (showSeats.filter (fun s => s.status == SeatStatus.AVAILABLE)).length
    let held := (showSeats.filter (fun s => s.status == SeatStatus.HELD)).length
    let booked := (showSeats.filter (fun s => s.status == SeatStatus.BOOKED)).length
    let details := showSeats.map (fun s =>
      SeatDetail.mk s.seat_id s.status.value
        (if s.status == SeatStatus.HELD then s.hold_expires_at else none))
    some ⟨avail + held + booked, avail, held, booked, details, true⟩

/-- DatabaseManager.reset_all_seats (lines 354-377): delete all holds and
bookings, set every seat AVAILABLE with cleared hold fields, return the
three counts. -/
def reset_all_seats (st : DBState) : (Nat × Nat × Nat) × DBState :=
  ((st.holds.length, st.bookings.length, st.seats.length),
   { st with holds := [], bookings := [],
             seats := st.seats.map (fun s =>
               { s with status := SeatStatus.AVAILABLE,
                        hold_id := none,
                        hold_expires_at := none }) })

/-- Whether the first character list is an initial segment of the second. -/
def charsStartWith : List Char → List Char → Bool
  | [], _ => true
  | _ :: _, [] => false
  | p :: ps, c :: cs => p == c && charsStartWith ps cs

/-- Whether the pattern occurs contiguously inside the character list. -/
def charsHaveSub (pat : List Char) : List Char → Bool
  | [] => charsStartWith pat []
  | c :: cs => charsStartWith pat (c :: cs) || charsHaveSub pat cs

/-- Python's substring containment `pat in s`. -/
def strContains (s pat : String) : Bool :=
  charsHaveSub pat.data s.data

/-- HTTP status the hold endpoint attaches to a DatabaseManager.hold_seats
result (src/app.py lines 195-201): 201 on success, otherwise
`409 if "unavailable" in result.get("error", "") else 400`. -/
def hold_http_status (r : Except HoldError HoldSuccess) : Nat :=
  match r with
  | .ok _ => 201
  | .error e => if strContains e.message "unavailable" then 409 else 400

/-- HTTP status of GET /shows/<show_id>/seats (src/app.py lines 159-166):
404 when get_seat_status returns None, else 200. -/
def seats_http_status (st : DBState) (sid : String) : Nat :=
  match get_seat_status st sid with
  | none => 404
  | some _ => 200

/-- JSON values as the hold endpoint's duration validation distinguishes
them (src/app.py lines 180-193).  JSON integers are `jint`; Python floats
take the same `int(...)` path after truncation, so a float request value is
represented by its truncation.  `jother` covers null, arrays and objects,
which all fall to the rejection branch. -/
inductive JVal where
  | jint (n : Int)
  | jbool (b : Bool)
  | jstr (s : String)
  | jother
deriving DecidableEq, Repr

/-- The 400 message of the duration validation branches in src/app.py. -/
def durationErrorMsg : String :=
  "hold_duration_seconds must be an integer between 60 and 1800 seconds"

/-- src/app.py lines 180-192: `data.get('hold_duration_seconds', 60)`
(`none` = key absent, giving the integer default 60); booleans rejected
first; ints accepted; digit-only strings parsed; anything else present is
rejected. -/
def parse_hold_duration (entry : Option JVal) : Except String Int :=
  match entry with
  | none => .ok 60
  | some (.jbool _) => .error durationErrorMsg
  | some (.jint n) => .ok n
  | some (.jstr s) =>
    if s.length > 0 && s.all Char.isDigit then
      .ok ((s.toNat?.getD 0 : Nat) : Int)
    else .error durationErrorMsg
  | some .jother => .error durationErrorMsg

/-- src/app.py line 193: `duration = max(60, min(duration_int, 1800))`. -/
def clamp_duration (n : Int) : Int := max 60 (min n 1800)

/-- The duration that reaches `db.hold_seats` for a given request entry:
validation followed by clamping. -/
def hold_duration (entry : Option JVal) : Except String Int :=
  (parse_hold_duration entry).map clamp_duration

/-- The sequence of seat_ids locked by the `with_for_update()` query of
hold_seats (lines 105-108) and of book_hold (lines 179-182): the matching
rows in the order the store returns them.  Neither query carries an
`order_by`, so this is the store's scan order over the seats table. -/
def seat_lock_order (st : DBState) (sid : String) (seat_ids : List String) :
    List String :=
  (st.seats.filter (seatMatches sid seat_ids)).map (·.seat_id)

/-- Strict lexicographic order on character lists (the order SQL and
Python use on the plain ASCII seat identifiers). -/
def charsLt : List Char → List Char → Bool
  | [], [] => false
  | [], _ :: _ => true
  | _ :: _, [] => false
  | a :: as, b :: bs => a < b || (a == b && charsLt as bs)

/-- Strict lexicographic order on strings. -/
def strLtB (a b : String) : Bool := charsLt a.data b.data

/-- Whether a list of seat_ids is in strictly ascending order. -/
def strictAscending : List String → Bool
  | [] => true
  | [_] => true
  | a :: b :: rest => strLtB a b && strictAscending (b :: rest)

/-- Spec invariants 2 and 3 on a single seat row:
HELD ⇔ (hold_id and hold_expires_at both present), and
AVAILABLE ∨ BOOKED ⇒ both absent. -/
def seat_invariant (s : Seat) : Bool :=
  ((s.status == SeatStatus.HELD) == (s.hold_id.isSome && s.hold_expires_at.isSome)) &&
  (!(s.status == SeatStatus.AVAILABLE || s.status == SeatStatus.BOOKED) ||
   (s.hold_id == none && s.hold_expires_at == none))

/-- The seat-field invariant over the whole store. -/
def state_invariant (st : DBState) : Bool :=
  st.seats.all seat_invariant

/-- Empty store, for the unknown-show scenarios. -/
def stC3 : DBState := ⟨[], [], [], []⟩

/-- Store whose seats table enumerates "B1" before "A1" (a scan order the
store is free to use, since nothing orders the seat rows). -/
def stC2 : DBState :=
  ⟨["s1"],
   [⟨"s1", "B1", SeatStatus.AVAILABLE, none, none⟩,
    ⟨"s1", "A1", SeatStatus.AVAILABLE, none, none⟩],
   [], []⟩

/-- Store with seats "A1", "B1" enumerated in ascending order. -/
def stC2b : DBState :=
  ⟨["s1"],
   [⟨"s1", "A1", SeatStatus.AVAILABLE, none, none⟩,
    ⟨"s1", "B1", SeatStatus.AVAILABLE, none, none⟩],
   [], []⟩

/-- Store with one live hold (id 7, expiring at 100) on seat "C3". -/
def stC1 : DBState :=
  ⟨["s1"],
   [⟨"s1", "C3", SeatStatus.HELD, some 7, some 100⟩],
   [⟨7, "s1", ["C3"], 100⟩],
   []⟩

/-- Store with one hold (id 9) on seat "B5" that expired at time 50. -/
def stC4 : DBState :=
  ⟨["s1"],
   [⟨"s1", "B5", SeatStatus.HELD, some 9, some 50⟩],
   [⟨9, "s1", ["B5"], 50⟩],
   []⟩

/-- Store where seat "A1" exists but is already held (by hold 3). -/
def stC5 : DBState :=
  ⟨["s1"],
   [⟨"s1", "A1", SeatStatus.HELD, some 3, some 100⟩,
    ⟨"s1", "A2", SeatStatus.AVAILABLE, none, none⟩],
   [⟨3, "s1", ["A1"], 100⟩],
   []⟩

/-- Store with one available seat, used to exercise a fresh hold. -/
def stC7 : DBState :=
  ⟨["s1"], [⟨"s1", "A1", SeatStatus.AVAILABLE, none, none⟩], [], []⟩

/-- The store stC7 after a successful hold of ["A1"] with id 4 at time 0
for 60 seconds. -/
def stC7b : DBState :=
  ⟨["s1"], [⟨"s1", "A1", SeatStatus.HELD, some 4, some 60⟩],
   [⟨4, "s1", ["A1"], 60⟩], []⟩

/-- Store mixing a held and an available seat, satisfying the seat-field
invariant. -/
def stC6 : DBState :=
  ⟨["s1"],
   [⟨"s1", "A1", SeatStatus.HELD, some 3, some 100⟩,
    ⟨"s1", "A2", SeatStatus.AVAILABLE, none, none⟩],
   [⟨3, "s1", ["A1"], 100⟩],
   []⟩

/-- Store with a single seat "A1", used for the duplicate-request claim. -/
def stC9 : DBState :=
  ⟨["s1"], [⟨"s1", "A1", SeatStatus.AVAILABLE, none, none⟩], [], []⟩

/-- Store with a single available seat, for the seat-status payload claim. -/
def stC10 : DBState :=
  ⟨["s1"], [⟨"s1", "A1", SeatStatus.AVAILABLE, none, none⟩], [], []⟩

/-- The payload get_seat_status returns on stC10 for show "s1". -/
def pC10 : SeatStatusPayload :=
  ⟨1, 1, 0, 0, [⟨"A1", "available", none⟩], true⟩

/- ------------------------------------------------------------------ -/
/- Theorems                                                           -/
/- ------------------------------------------------------------------ -/

/-- Claim C10: for every existing show, the payload returned by
get_seat_status satisfies total_seats = available_seats + held_seats +
booked_seats (the total is computed as that sum), and its
invariants_valid field is always true. -/
theorem C10_seat_status_total_and_flag (st : DBState) (sid : String)
    (p : SeatStatusPayload) (h : get_seat_status st sid = some p) :
    p.total_seats = p.available_seats + p.held_seats + p.booked_seats ∧
    p.invariants_valid = true := by
  unfold get_seat_status at h
  split at h
  · exact absurd h (by simp)
  · injection h with h
    subst h
    exact ⟨rfl, rfl⟩

/-- Witness for C10 at the concrete store stC10. -/
theorem C10_seat_status_total_and_flag_witness :
    get_seat_status stC10 "s1" = some pC10 ∧
    (pC10.total_seats = pC10.available_seats + pC10.held_seats + pC10.booked_seats ∧
     pC10.invariants_valid = true) :=
  ⟨rfl, C10_seat_status_total_and_flag stC10 "s1" pC10 rfl⟩

/-- Claim C8: the hold endpoint clamps hold_duration_seconds to [60, 1800]
before it reaches the engine: a requested 0 becomes 60, a requested 10000
becomes 1800, an absent value defaults to 60, and every accepted request
yields a duration within [60, 1800]. -/
theorem C8_duration_clamped :
    hold_duration (some (.jint 0)) = .ok 60 ∧
    hold_duration (some (.jint 10000)) = .ok 1800 ∧
    hold_duration none = .ok 60 ∧
    ∀ entry d, hold_duration entry = .ok d → 60 ≤ d ∧ d ≤ 1800 := by
  refine ⟨rfl, rfl, rfl, ?_⟩
  intro entry d h
  unfold hold_duration at h
  cases hp : parse_hold_duration entry with
  | error e => rw [hp] at h; exact absurd h (by simp [Except.map])
  | ok n =>
    rw [hp] at h
    simp only [Except.map] at h
    injection h with h
    subst h
    unfold clamp_duration
    exact ⟨le_max_left _ _, max_le (by norm_num) (min_le_right _ _)⟩

/-- Witness for C8: a request value of 75 reaches the engine within
bounds. -/
theorem C8_duration_clamped_witness : (60 : Int) ≤ 75 ∧ (75 : Int) ≤ 1800 :=
  C8_duration_clamped.2.2.2 (some (.jint 75)) 75 rfl

/-- Claim C3 counterexample: on the empty store, a hold request for the
unknown show "s1" fails with the show-not-found error, yet the HTTP
surface returns 400 — not the 404 the claim asserts. -/
theorem C3_unknown_show_counterexample :
    (hold_seats stC3 "s1" ["A1"] 60 0 0).1 = .error .showNotFound ∧
    hold_http_status (hold_seats stC3 "s1" ["A1"] 60 0 0).1 = 400 ∧
    (400 : Nat) ≠ 404 :=
  ⟨rfl, rfl, by decide⟩

/-- Claim C3 (amended): any operation on an unknown show_id fails with
ShowNotFound at the engine; the GET seats endpoint maps this to 404, but
the hold endpoint maps it to 400 (its status mapping only distinguishes
"unavailable" errors, sending everything else to 400). -/
theorem C3_unknown_show_amended (st : DBState) (sid : String)
    (seat_ids : List String) (dur now : Int) (fid : Nat)
    (h : st.shows.contains sid = false) :
    (hold_seats st sid seat_ids dur now fid).1 = .error .showNotFound ∧
    hold_http_status (hold_seats st sid seat_ids dur now fid).1 = 400 ∧
    seats_http_status st sid = 404 := by
  have h1 : (hold_seats st sid seat_ids dur now fid).1 = .error .showNotFound := by
    unfold hold_seats
    rw [h]
    rfl
  refine ⟨h1, ?_, ?_⟩
  · rw [h1]; rfl
  · unfold seats_http_status get_seat_status
    rw [h]
    rfl

/-- Witness for the amended C3 at the empty store. -/
theorem C3_unknown_show_amended_witness :
    (hold_seats stC3 "s2" ["A1"] 60 0 0).1 = .error .showNotFound ∧
    hold_http_status (hold_seats stC3 "s2" ["A1"] 60 0 0).1 = 400 ∧
    seats_http_status stC3 "s2" = 404 :=
  C3_unknown_show_amended stC3 "s2" ["A1"] 60 0 0 rfl

/-- Claim C2 counterexample: on a store whose seat table enumerates "B1"
before "A1", a hold of ["A1", "B1"] proceeds (and succeeds), and the
for-update query locks the rows in the order ["B1", "A1"], which is not
ascending: the queries carry no ORDER BY, so ascending lock order is not
enforced. -/
theorem C2_lock_order_counterexample :
    (hold_seats stC2 "s1" ["A1", "B1"] 60 0 7).1 = .ok ⟨7, 60, ["A1", "B1"]⟩ ∧
    seat_lock_order stC2 "s1" ["A1", "B1"] = ["B1", "A1"] ∧
    strictAscending (seat_lock_order stC2 "s1" ["A1", "B1"]) = false :=
  ⟨rfl, rfl, rfl⟩

/-- Orderedness of a pairwise-increasing seat_id list. -/
theorem strictAscending_of_pairwise :
    ∀ (l : List String), List.Pairwise (fun a b => strLtB a b = true) l →
      strictAscending l = true
  | [], _ => rfl
  | [_], _ => rfl
  | a :: b :: u, h => by
    rw [List.pairwise_cons] at h
    have hab : strLtB a b = true := h.1 b (by simp)
    have ht := strictAscending_of_pairwise (b :: u) h.2
    unfold strictAscending
    simp [hab, ht]

/-- Claim C2 (amended): the for-update queries of hold_seats and book_hold
lock exactly the seats of the show matching the requested set, in the
store's scan order over the seats table; the locked sequence is ascending
whenever the store enumerates seat rows in ascending seat_id order, but no
ORDER BY enforces this. -/
theorem C2_lock_order_amended (st : DBState) (sid : String)
    (seat_ids : List String)
    (h : List.Pairwise (fun a b : Seat => strLtB a.seat_id b.seat_id = true) st.seats) :
    strictAscending (seat_lock_order st sid seat_ids) = true ∧
    ∀ q, q ∈ seat_lock_order st sid seat_ids ↔
      ∃ s ∈ st.seats, s.show_id = sid ∧ s.seat_id ∈ seat_ids ∧ s.seat_id = q := by
  constructor
  · apply strictAscending_of_pairwise
    rw [seat_lock_order, List.pairwise_map]
    exact h.filter _
  · intro q
    simp only [seat_lock_order, List.mem_map, List.mem_filter, seatMatches,
      Bool.and_eq_true, beq_iff_eq, List.elem_iff]
    constructor
    · rintro ⟨s, ⟨hs, hm⟩, rfl⟩
      exact ⟨s, hs, hm.1, hm.2, rfl⟩
    · rintro ⟨s, hs, h1, h2, rfl⟩
      exact ⟨s, ⟨hs, h1, h2⟩, rfl⟩

/-- Witness for the amended C2: on a store with ascending scan order the
lock order is ascending, and "B1" is locked exactly because it matches. -/
theorem C2_lock_order_amended_witness :
    strictAscending (seat_lock_order stC2b "s1" ["A1", "B1"]) = true ∧
    ("B1" ∈ seat_lock_order stC2b "s1" ["A1", "B1"] ↔
      ∃ s ∈ stC2b.seats, s.show_id = "s1" ∧ s.seat_id ∈ ["A1", "B1"] ∧
        s.seat_id = "B1") :=
  ⟨(C2_lock_order_amended stC2b "s1" ["A1", "B1"]
      (by unfold stC2b; decide)).1,
   (C2_lock_order_amended stC2b "s1" ["A1", "B1"]
      (by unfold stC2b; decide)).2 "B1"⟩

/-- Rows returned by the for-update query belong to the requested show and
to the requested seat set. -/
theorem show_id_of_mem_filter (st : DBState) (sid : String)
    (seat_ids : List String) (s : Seat)
    (hs : s ∈ st.seats.filter (seatMatches sid seat_ids)) :
    s.show_id = sid ∧ s.seat_id ∈ seat_ids := by
  rw [List.mem_filter] at hs
  have h2 := hs.2
  simp only [seatMatches, Bool.and_eq_true, beq_iff_eq, List.elem_iff] at h2
  exact h2

/-- With the primary key (show_id, seat_id) unique across seat rows, the
for-update query result has pairwise-distinct seat_ids. -/
theorem filtered_seat_ids_nodup (st : DBState) (sid : String)
    (seat_ids : List String)
    (hpk : (st.seats.map (fun s => (s.show_id, s.seat_id))).Nodup) :
    ((st.seats.filter (seatMatches sid seat_ids)).map (fun s => s.seat_id)).Nodup := by
  have h1 : List.Pairwise
      (fun a b : Seat => (a.show_id, a.seat_id) ≠ (b.show_id, b.seat_id)) st.seats :=
    List.pairwise_map.mp hpk
  have h2 := h1.filter (seatMatches sid seat_ids)
  have h3 : List.Pairwise (fun a b : Seat => a.seat_id ≠ b.seat_id)
      (st.seats.filter (seatMatches sid seat_ids)) := by
    refine h2.imp_of_mem ?_
    intro a b ha hb hne heq
    apply hne
    have hsa := (show_id_of_mem_filter st sid seat_ids a ha).1
    have hsb := (show_id_of_mem_filter st sid seat_ids b hb).1
    rw [hsa, hsb, heq]
  exact List.pairwise_map.mpr h3

/-- The for-update query returns at most as many rows as there are
distinct requested seat_ids. -/
theorem filtered_length_le_dedup (st : DBState) (sid : String)
    (seat_ids : List String)
    (hpk : (st.seats.map (fun s => (s.show_id, s.seat_id))).Nodup) :
    (st.seats.filter (seatMatches sid seat_ids)).length ≤ seat_ids.dedup.length := by
  have hnd := filtered_seat_ids_nodup st sid seat_ids hpk
  have hlen : (st.seats.filter (seatMatches sid seat_ids)).length
      = ((st.seats.filter (seatMatches sid seat_ids)).map (fun s => s.seat_id)).length := by
    rw [List.length_map]
  rw [hlen, ← List.toFinset_card_of_nodup hnd, ← List.card_toFinset]
  apply Finset.card_le_card
  intro q hq
  rw [List.mem_toFinset] at hq ⊢
  obtain ⟨s, hs, rfl⟩ := List.mem_map.mp hq
  exact (show_id_of_mem_filter st sid seat_ids s hs).2

/-- A list with a duplicate has strictly fewer distinct elements. -/
theorem dedup_length_lt_of_not_nodup (l : List String) (h : ¬ l.Nodup) :
    l.dedup.length < l.length := by
  rcases Nat.lt_or_ge l.dedup.length l.length with hlt | hge
  · exact hlt
  · exfalso
    apply h
    have hle := (List.dedup_sublist l).length_le
    have heq : l.dedup.length = l.length := le_antisymm hle hge
    have hdl := (List.dedup_sublist l).eq_of_length heq
    rw [← hdl]
    exact List.nodup_dedup l

/-- When every requested seat exists in the show and the request has no
duplicates, the count-based existence check of hold_seats passes. -/
theorem filtered_length_eq (st : DBState) (sid : String)
    (seat_ids : List String)
    (hpk : (st.seats.map (fun s => (s.show_id, s.seat_id))).Nodup)
    (hnd : seat_ids.Nodup)
    (hex : ∀ q ∈ seat_ids, ∃ s ∈ st.seats, s.show_id = sid ∧ s.seat_id = q) :
    (st.seats.filter (seatMatches sid seat_ids)).length = seat_ids.length := by
  have hndF := filtered_seat_ids_nodup st sid seat_ids hpk
  have hperm : ((st.seats.filter (seatMatches sid seat_ids)).map
      (fun s => s.seat_id)).Perm seat_ids := by
    rw [List.perm_ext_iff_of_nodup hndF hnd]
    intro q
    constructor
    · intro hq
      obtain ⟨s, hs, rfl⟩ := List.mem_map.mp hq
      exact (show_id_of_mem_filter st sid seat_ids s hs).2
    · intro hq
      obtain ⟨s, hs, hshow2, hseat⟩ := hex q hq
      apply List.mem_map.mpr
      refine ⟨s, ?_, hseat⟩
      rw [List.mem_filter]
      refine ⟨hs, ?_⟩
      simp only [seatMatches, Bool.and_eq_true, beq_iff_eq, List.elem_iff]
      exact ⟨hshow2, by rw [hseat]; exact hq⟩
  have hpl := hperm.length_eq
  rw [List.length_map] at hpl
  exact hpl

/-- Claim C9: on an existing show, a hold_seats request whose seat_ids
list contains a duplicate fails the count-based existence check first and
returns the invalid-seat-IDs error, and the dedicated duplicate-seats
branch is unreachable for every possible input. -/
theorem C9_duplicate_branch_unreachable (st : DBState) (sid : String)
    (seat_ids : List String) (dur now : Int) (fid : Nat)
    (hpk : (st.seats.map (fun s => (s.show_id, s.seat_id))).Nodup) :
    (st.shows.contains sid = true → ¬ seat_ids.Nodup →
      (hold_seats st sid seat_ids dur now fid).1 = .error .invalidSeatIds) ∧
    (hold_seats st sid seat_ids dur now fid).1 ≠ .error .duplicateSeats := by
  have hle := filtered_length_le_dedup st sid seat_ids hpk
  have hds := (List.dedup_sublist seat_ids).length_le
  constructor
  · intro hshow hdup
    have hlt : seat_ids.dedup.length < seat_ids.length :=
      dedup_length_lt_of_not_nodup seat_ids hdup
    have hne : ((st.seats.filter (seatMatches sid seat_ids)).length
        != seat_ids.length) = true := by
      rw [bne_iff_ne]
      exact Nat.ne_of_lt (lt_of_le_of_lt hle hlt)
    simp only [hold_seats, hshow, Bool.not_true]
    rw [if_neg (by simp), if_pos hne]
  · simp only [hold_seats]
    split_ifs with h1 h2 h3 h4
    · simp
    · simp
    · exfalso
      rw [Bool.not_eq_true, bne_eq_false_iff_eq] at h2
      rw [bne_iff_ne] at h3
      apply h3
      omega
    · simp
    · simp

/-- Witness for C9: requesting ["A1", "A1"] on a show owning seat "A1"
yields the invalid-seat-IDs error, not the duplicate-seats error. -/
theorem C9_duplicate_branch_unreachable_witness :
    (hold_seats stC9 "s1" ["A1", "A1"] 60 0 0).1 = .error .invalidSeatIds ∧
    (hold_seats stC9 "s1" ["A1", "A1"] 60 0 0).1 ≠ .error .duplicateSeats :=
  ⟨(C9_duplicate_branch_unreachable stC9 "s1" ["A1", "A1"] 60 0 0
      (by decide)).1 rfl (by decide),
   (C9_duplicate_branch_unreachable stC9 "s1" ["A1", "A1"] 60 0 0
      (by decide)).2⟩

/-- Claim C5 counterexample: on stC5 every seat requested by
["A1", "A1"] exists in the show and "A1" is not AVAILABLE, yet the call
fails with the invalid-seat-IDs error instead of SeatsUnavailable, because
the duplicate makes the count check fail first. -/
theorem C5_duplicate_request_counterexample :
    (["A1", "A1"].all (fun q => stC5.seats.any
        (fun s => s.show_id == "s1" && s.seat_id == q)) = true) ∧
    (stC5.seats.any (fun s => ["A1", "A1"].contains s.seat_id &&
        s.status != SeatStatus.AVAILABLE) = true) ∧
    (hold_seats stC5 "s1" ["A1", "A1"] 60 0 5).1 = .error .invalidSeatIds :=
  ⟨by decide, by decide, rfl⟩

/-- Claim C5 (amended): for every hold_seats call whose requested seats
all exist in the show and whose request list has no duplicates, if any
requested seat is not AVAILABLE the call fails with SeatsUnavailable
listing exactly the requested seat_ids that are not AVAILABLE, and leaves
the store unchanged. -/
theorem C5_seats_unavailable_amended (st : DBState) (sid : String)
    (seat_ids : List String) (dur now : Int) (fid : Nat)
    (hshow : st.shows.contains sid = true)
    (hnd : seat_ids.Nodup)
    (hpk : (st.seats.map (fun s => (s.show_id, s.seat_id))).Nodup)
    (hex : ∀ q ∈ seat_ids, ∃ s ∈ st.seats, s.show_id = sid ∧ s.seat_id = q)
    (hbad : ∃ s ∈ st.seats, s.show_id = sid ∧ s.seat_id ∈ seat_ids ∧
      s.status ≠ SeatStatus.AVAILABLE) :
    hold_seats st sid seat_ids dur now fid =
      (.error (.seatsUnavailable
        (((st.seats.filter (seatMatches sid seat_ids)).filter
            (fun s => s.status != SeatStatus.AVAILABLE)).map (fun s => s.seat_id))), st) ∧
    ∀ q, q ∈ ((st.seats.filter (seatMatches sid seat_ids)).filter
          (fun s => s.status != SeatStatus.AVAILABLE)).map (fun s => s.seat_id) ↔
      ∃ s ∈ st.seats, s.show_id = sid ∧ s.seat_id = q ∧ q ∈ seat_ids ∧
        s.status ≠ SeatStatus.AVAILABLE := by
  constructor
  · have hcnt := filtered_length_eq st sid seat_ids hpk hnd hex
    have hcne : ((st.seats.filter (seatMatches sid seat_ids)).length
        != seat_ids.length) = false := by
      rw [bne_eq_false_iff_eq]; exact hcnt
    have hdne : (seat_ids.length != seat_ids.dedup.length) = false := by
      rw [bne_eq_false_iff_eq, List.dedup_eq_self.mpr hnd]
    have hbne : ((((st.seats.filter (seatMatches sid seat_ids)).filter
        (fun s => s.status != SeatStatus.AVAILABLE)).map (fun s => s.seat_id))
          != []) = true := by
      rw [bne_iff_ne]
      obtain ⟨s, hs, hsh, hmem, hst⟩ := hbad
      apply List.ne_nil_of_mem (a := s.seat_id)
      apply List.mem_map_of_mem
      rw [List.mem_filter]
      refine ⟨?_, by rw [bne_iff_ne]; exact hst⟩
      rw [List.mem_filter]
      refine ⟨hs, ?_⟩
      simp only [seatMatches, Bool.and_eq_true, beq_iff_eq, List.elem_iff]
      exact ⟨hsh, hmem⟩
    simp only [hold_seats, hshow, Bool.not_true]
    rw [if_neg (by simp), if_neg (by simp [hcne]), if_neg (by simp [hdne]),
      if_pos hbne]
  · intro q
    simp only [List.mem_map, List.mem_filter, seatMatches, Bool.and_eq_true,
      beq_iff_eq, List.elem_iff, bne_iff_ne, ne_eq]
    constructor
    · rintro ⟨s, ⟨⟨hs, hsh, hct⟩, hst⟩, rfl⟩
      exact ⟨s, hs, hsh, rfl, hct, hst⟩
    · rintro ⟨s, hs, hsh, rfl, hmem, hst⟩
      exact ⟨s, ⟨⟨hs, hsh, hmem⟩, hst⟩, rfl⟩

/-- Witness for the amended C5: requesting the held seat "A1" alone fails
with SeatsUnavailable reporting exactly ["A1"], leaving the store
untouched. -/
theorem C5_seats_unavailable_amended_witness :
    hold_seats stC5 "s1" ["A1"] 60 0 5 =
      (.error (.seatsUnavailable
        (((stC5.seats.filter (seatMatches "s1" ["A1"])).filter
            (fun s => s.status != SeatStatus.AVAILABLE)).map (fun s => s.seat_id))), stC5) ∧
    ("A1" ∈ ((stC5.seats.filter (seatMatches "s1" ["A1"])).filter
          (fun s => s.status != SeatStatus.AVAILABLE)).map (fun s => s.seat_id) ↔
      ∃ s ∈ stC5.seats, s.show_id = "s1" ∧ s.seat_id = "A1" ∧ "A1" ∈ ["A1"] ∧
        s.status ≠ SeatStatus.AVAILABLE) :=
  ⟨(C5_seats_unavailable_amended stC5 "s1" ["A1"] 60 0 5 rfl (by decide)
      (by decide) (by decide) (by decide)).1,
   (C5_seats_unavailable_amended stC5 "s1" ["A1"] 60 0 5 rfl (by decide)
      (by decide) (by decide) (by decide)).2 "A1"⟩

/-- After deleting the hold row with the given primary key, no hold with
that id remains (the ids are unique, being a primary key). -/
theorem holdId_ne_of_mem_eraseP :
    ∀ (l : List Hold) (hid : Nat), (l.map (fun g => g.hold_id)).Nodup →
      ∀ g ∈ l.eraseP (fun g => g.hold_id == hid), g.hold_id ≠ hid
  | [], _, _, g, hg => by simp [List.eraseP_nil] at hg
  | a :: t, hid, hnd, g, hg => by
    rw [List.map_cons, List.nodup_cons] at hnd
    rw [List.eraseP_cons] at hg
    by_cases ha : a.hold_id = hid
    · rw [beq_iff_eq.mpr ha, cond_true] at hg
      intro hgid
      exact hnd.1 (by rw [ha, ← hgid]; exact List.mem_map_of_mem _ hg)
    · rw [beq_eq_false_iff_ne.mpr ha, cond_false] at hg
      rcases List.mem_cons.mp hg with rfl | hg2
      · exact ha
      · exact holdId_ne_of_mem_eraseP t hid hnd.2 g hg2

/-- The predicate of findHold holds of the hold it returns. -/
theorem findHold_props (holds : List Hold) (hid : Nat) (sid : String)
    (h0 : Hold) (h : findHold holds hid sid = some h0) :
    h0.hold_id = hid ∧ h0.show_id = sid := by
  have hp := List.find?_some h
  rw [Bool.and_eq_true, beq_iff_eq, beq_iff_eq] at hp
  exact hp

/-- Claim C4: when book_hold is called on a hold row that is still present
but already expired, it returns the hold-expired error, resets every seat
still referencing the hold's id to AVAILABLE with cleared hold fields, and
deletes the hold row. -/
theorem C4_expired_book_cleans_up (st : DBState) (sid : String) (hid : Nat)
    (now ins : Int) (hold0 : Hold)
    (hfind : findHold st.holds hid sid = some hold0)
    (hexp : hold0.expires_at ≤ now)
    (hids : (st.holds.map (fun g => g.hold_id)).Nodup)
    (hwf : ∀ s ∈ st.seats, s.hold_id = some hold0.hold_id →
      s.show_id = hold0.show_id ∧ s.seat_id ∈ hold0.seat_ids) :
    (book_hold st sid hid now ins).1 = .error .holdExpired ∧
    (∀ s ∈ st.seats, s.hold_id = some hold0.hold_id →
      (⟨s.show_id, s.seat_id, SeatStatus.AVAILABLE, none, none⟩ : Seat) ∈
        (book_hold st sid hid now ins).2.seats) ∧
    (∀ g ∈ (book_hold st sid hid now ins).2.holds, g.hold_id ≠ hold0.hold_id) := by
  have hbh : book_hold st sid hid now ins =
      (.error .holdExpired, cleanup_hold st hold0) := by
    simp only [book_hold, hfind]
    rw [if_pos hexp]
  refine ⟨by rw [hbh], ?_, ?_⟩
  · intro s hs hsid
    rw [hbh]
    obtain ⟨hsh, hmem⟩ := hwf s hs hsid
    have hcond : (s.show_id == hold0.show_id && hold0.seat_ids.contains s.seat_id &&
        s.hold_id == some hold0.hold_id) = true := by
      simp only [Bool.and_eq_true, beq_iff_eq, List.elem_iff]
      exact ⟨⟨hsh, hmem⟩, hsid⟩
    exact List.mem_map.mpr ⟨s, hs, if_pos hcond⟩
  · intro g hg
    rw [hbh] at hg
    exact holdId_ne_of_mem_eraseP st.holds hold0.hold_id hids g hg

/-- Witness for C4: booking hold 9 at time 70, after its expiry at 50,
fails with hold-expired and leaves seat "B5" available with cleared
fields. -/
theorem C4_expired_book_cleans_up_witness :
    (book_hold stC4 "s1" 9 70 71).1 = .error .holdExpired ∧
    (⟨"s1", "B5", SeatStatus.AVAILABLE, none, none⟩ : Seat) ∈
      (book_hold stC4 "s1" 9 70 71).2.seats :=
  ⟨(C4_expired_book_cleans_up stC4 "s1" 9 70 71 ⟨9, "s1", ["B5"], 50⟩ rfl
      (by decide) (by decide) (by decide)).1,
   (C4_expired_book_cleans_up stC4 "s1" 9 70 71 ⟨9, "s1", ["B5"], 50⟩ rfl
      (by decide) (by decide) (by decide)).2.1
     ⟨"s1", "B5", SeatStatus.HELD, some 9, some 50⟩ (by decide) rfl⟩

/-- Claim C1 counterexample: on stC1 the first book_hold call (clock reads
10 at entry, 11 at row insertion) returns booked_at = 10, while the replay
returns the stored booked_at = 11: the booked_at of the first successful
response is not preserved by the replay. -/
theorem C1_first_booked_at_not_preserved_counterexample :
    (book_hold stC1 "s1" 7 10 11).1 = .ok ⟨7, ["C3"], 10⟩ ∧
    (book_hold (book_hold stC1 "s1" 7 10 11).2 "s1" 7 20 21).1 =
      .ok ⟨7, ["C3"], 11⟩ ∧
    (10 : Int) ≠ 11 :=
  ⟨rfl, rfl, by decide⟩

/-- Claim C1 (amended): for a hold that is initially holdable, every
book_hold call returns the same booking_id and seat_ids; the first call
responds with the transaction-entry clock reading while the booking row
stores the insertion-time reading, and every replay returns that stored
value unchanged and leaves the store unchanged. -/
theorem C1_book_hold_idempotent_amended (st : DBState) (sid : String)
    (hid : Nat) (now1 ins1 : Int) (hold0 : Hold)
    (hfind : findHold st.holds hid sid = some hold0)
    (hexp : ¬ hold0.expires_at ≤ now1)
    (hseats : ∀ s ∈ st.seats.filter (seatMatches sid hold0.seat_ids),
      s.status = SeatStatus.HELD ∧ s.hold_id = some hold0.hold_id)
    (hids : (st.holds.map (fun g => g.hold_id)).Nodup)
    (hbk : st.bookings.find?
      (fun b => b.booking_id == hid && b.show_id == sid) = none) :
    (book_hold st sid hid now1 ins1).1 =
      .ok ⟨hold0.hold_id, hold0.seat_ids, now1⟩ ∧
    ∀ now2 ins2,
      book_hold (book_hold st sid hid now1 ins1).2 sid hid now2 ins2 =
        (.ok ⟨hold0.hold_id, hold0.seat_ids, ins1⟩,
         (book_hold st sid hid now1 ins1).2) := by
  obtain ⟨hh0id, hh0sid⟩ := findHold_props st.holds hid sid hold0 hfind
  have hany : ((st.seats.filter (seatMatches sid hold0.seat_ids)).any
      (fun s => s.status != SeatStatus.HELD ||
        s.hold_id != some hold0.hold_id)) = false := by
    rw [List.any_eq_false]
    intro s hs
    obtain ⟨h1, h2⟩ := hseats s hs
    simp [h1, h2]
  have heval : book_hold st sid hid now1 ins1 =
      (.ok ⟨hold0.hold_id, hold0.seat_ids, now1⟩,
       { st with
         seats := st.seats.map (fun s =>
           if seatMatches sid hold0.seat_ids s then
             { s with status := SeatStatus.BOOKED, hold_id := none,
                      hold_expires_at := none }
           else s),
         holds := st.holds.eraseP (fun g => g.hold_id == hold0.hold_id),
         bookings := st.bookings ++
           [⟨hold0.hold_id, sid, hold0.seat_ids, ins1⟩] }) := by
    simp only [book_hold, hfind]
    rw [if_neg hexp, if_neg (by rw [hany]; simp)]
  constructor
  · rw [heval]
  · intro now2 ins2
    rw [heval]
    have hfind2 : findHold
        (st.holds.eraseP (fun g => g.hold_id == hold0.hold_id)) hid sid = none := by
      rw [findHold, List.find?_eq_none]
      intro g hg
      have hne := holdId_ne_of_mem_eraseP st.holds hold0.hold_id hids g hg
      simp only [Bool.and_eq_true, beq_iff_eq, not_and]
      intro hgid
      exact absurd (hgid.trans hh0id.symm) hne
    have hfindb : ((st.bookings ++
        [(⟨hold0.hold_id, sid, hold0.seat_ids, ins1⟩ : Booking)]).find?
          (fun b => b.booking_id == hid && b.show_id == sid)) =
        some ⟨hold0.hold_id, sid, hold0.seat_ids, ins1⟩ := by
      rw [List.find?_append, hbk]
      simp [hh0id]
    simp only [book_hold]
    rw [hfind2, hfindb]

/-- Witness for the amended C1 on stC1: the first call returns booked_at
10 (entry time), and the replay at any later time returns the stored
insertion timestamp 11, with the same booking_id and seat_ids. -/
theorem C1_book_hold_idempotent_amended_witness :
    (book_hold stC1 "s1" 7 10 11).1 = .ok ⟨7, ["C3"], 10⟩ ∧
    book_hold (book_hold stC1 "s1" 7 10 11).2 "s1" 7 20 21 =
      (.ok ⟨7, ["C3"], 11⟩, (book_hold stC1 "s1" 7 10 11).2) :=
  ⟨(C1_book_hold_idempotent_amended stC1 "s1" 7 10 11 ⟨7, "s1", ["C3"], 100⟩
      rfl (by decide) (by decide) (by decide) rfl).1,
   (C1_book_hold_idempotent_amended stC1 "s1" 7 10 11 ⟨7, "s1", ["C3"], 100⟩
      rfl (by decide) (by decide) (by decide) rfl).2 20 21⟩

/-- Claim C7: after a successful hold_seats, release_hold with the
returned hold_id succeeds, returns every seat of the held set to
AVAILABLE with cleared hold fields, and deletes the hold row. -/
theorem C7_hold_then_release (st : DBState) (sid : String)
    (seat_ids : List String) (dur now : Int) (fid : Nat)
    (r : HoldSuccess) (st₁ : DBState)
    (hh : hold_seats st sid seat_ids dur now fid = (.ok r, st₁))
    (hfresh : ∀ g ∈ st.holds, g.hold_id ≠ fid) :
    (release_hold st₁ sid r.hold_id).1 = true ∧
    (∀ s ∈ st.seats, seatMatches sid seat_ids s = true →
      (⟨s.show_id, s.seat_id, SeatStatus.AVAILABLE, none, none⟩ : Seat) ∈
        (release_hold st₁ sid r.hold_id).2.seats) ∧
    (∀ g ∈ (release_hold st₁ sid r.hold_id).2.holds, g.hold_id ≠ fid) := by
  simp only [hold_seats] at hh
  split_ifs at hh with h1 h2 h3 h4
  · simp at hh
  · simp at hh
  · simp at hh
  · simp at hh
  rw [Prod.mk.injEq] at hh
  obtain ⟨hr, hst⟩ := hh
  have hr2 : r = ⟨fid, now + dur, seat_ids⟩ := by
    injection hr with h5
    exact h5.symm
  subst hr2
  have hnone : st.holds.find? (fun h => h.hold_id == fid && h.show_id == sid)
      = none := by
    rw [List.find?_eq_none]
    intro g hg
    simp [hfresh g hg]
  have hfindr : findHold st₁.holds fid sid =
      some ⟨fid, sid, seat_ids, now + dur⟩ := by
    rw [← hst]
    show findHold (st.holds ++ [⟨fid, sid, seat_ids, now + dur⟩]) fid sid = _
    rw [findHold, List.find?_append, hnone]
    simp
  have hrel : release_hold st₁ sid fid =
      (true, cleanup_hold st₁ ⟨fid, sid, seat_ids, now + dur⟩) := by
    simp only [release_hold]
    rw [hfindr]
  refine ⟨?_, ?_, ?_⟩
  · show (release_hold st₁ sid fid).1 = true
    rw [hrel]
  · intro s hs hmatch
    show _ ∈ (release_hold st₁ sid fid).2.seats
    rw [hrel]
    show _ ∈ (cleanup_hold st₁ ⟨fid, sid, seat_ids, now + dur⟩).seats
    unfold cleanup_hold
    dsimp only
    rw [← hst]
    dsimp only
    rw [List.map_map]
    apply List.mem_map.mpr
    refine ⟨s, hs, ?_⟩
    have hm2 := hmatch
    rw [seatMatches, Bool.and_eq_true] at hm2
    simp [Function.comp, hmatch, hm2.1, List.elem_iff.mp hm2.2]
  · intro g hg
    rw [show release_hold st₁ sid
        (⟨fid, now + dur, seat_ids⟩ : HoldSuccess).hold_id =
        release_hold st₁ sid fid from rfl, hrel] at hg
    have hg2 : g ∈ (cleanup_hold st₁ ⟨fid, sid, seat_ids, now + dur⟩).holds := hg
    unfold cleanup_hold at hg2
    dsimp only at hg2
    rw [← hst] at hg2
    dsimp only at hg2
    rw [List.eraseP_append_right _ (by
      intro b hb
      simp [hfresh b hb])] at hg2
    simp only [List.eraseP_cons, beq_self_eq_true, cond_true,
      List.append_nil] at hg2
    exact hfresh g hg2

/-- Witness for C7: holding ["A1"] on stC7 yields hold 4 and state stC7b;
releasing hold 4 succeeds and returns seat "A1" to AVAILABLE with
cleared fields. -/
theorem C7_hold_then_release_witness :
    (release_hold stC7b "s1" 4).1 = true ∧
    (⟨"s1", "A1", SeatStatus.AVAILABLE, none, none⟩ : Seat) ∈
      (release_hold stC7b "s1" 4).2.seats :=
  ⟨(C7_hold_then_release stC7 "s1" ["A1"] 60 0 4 ⟨4, 60, ["A1"]⟩ stC7b rfl
      (by decide)).1,
   (C7_hold_then_release stC7 "s1" ["A1"] 60 0 4 ⟨4, 60, ["A1"]⟩ stC7b rfl
      (by decide)).2.1 ⟨"s1", "A1", SeatStatus.AVAILABLE, none, none⟩
     (by decide) (by decide)⟩

/-- Mapping a pointwise invariant-preserving function over the seat rows
preserves the all-rows invariant. -/
theorem all_seat_invariant_map (l : List Seat) (f : Seat → Seat)
    (hf : ∀ s, seat_invariant s = true → seat_invariant (f s) = true)
    (h : l.all seat_invariant = true) : (l.map f).all seat_invariant = true := by
  rw [List.all_eq_true] at h ⊢
  intro x hx
  obtain ⟨s, hs, rfl⟩ := List.mem_map.mp hx
  exact hf s (h s hs)

/-- _cleanup_hold preserves the seat-field invariant. -/
theorem state_invariant_cleanup (st : DBState) (h : Hold)
    (hinv : state_invariant st = true) :
    state_invariant (cleanup_hold st h) = true := by
  unfold state_invariant cleanup_hold
  dsimp only
  apply all_seat_invariant_map _ _ _ hinv
  intro s hs
  by_cases hc : (s.show_id == h.show_id && h.seat_ids.contains s.seat_id &&
      s.hold_id == some h.hold_id) = true
  · rw [if_pos hc]; rfl
  · rw [if_neg hc]
    exact hs

/-- Iterating _cleanup_hold over any hold list preserves the seat-field
invariant. -/
theorem state_invariant_foldl_cleanup (l : List Hold) :
    ∀ (st : DBState), state_invariant st = true →
      state_invariant (l.foldl (fun acc h => cleanup_hold acc h) st) = true := by
  induction l with
  | nil => intro st h; exact h
  | cons a t ih =>
    intro st h
    exact ih (cleanup_hold st a) (state_invariant_cleanup st a h)

/-- Claim C6: the per-seat field invariant (HELD iff both hold fields
present; AVAILABLE or BOOKED implies both absent) is preserved by
hold_seats, book_hold, release_hold, the reaper cleanup, and reset_all. -/
theorem C6_seat_field_invariant_preserved (st : DBState) (sid : String)
    (seat_ids : List String) (dur now : Int) (fid hid : Nat)
    (now2 ins now3 : Int)
    (hinv : state_invariant st = true) :
    state_invariant (hold_seats st sid seat_ids dur now fid).2 = true ∧
    state_invariant (book_hold st sid hid now2 ins).2 = true ∧
    state_invariant (release_hold st sid hid).2 = true ∧
    state_invariant (cleanup_expired_holds st now3).2 = true ∧
    state_invariant (reset_all_seats st).2 = true := by
  refine ⟨?_, ?_, ?_, ?_, ?_⟩
  · simp only [hold_seats]
    split_ifs with h1 h2 h3 h4
    · exact hinv
    · exact hinv
    · exact hinv
    · exact hinv
    · show state_invariant { st with seats := _, holds := _ } = true
      unfold state_invariant
      dsimp only
      apply all_seat_invariant_map _ _ _ hinv
      intro s hs
      by_cases hc : seatMatches sid seat_ids s = true
      · rw [if_pos hc]; rfl
      · rw [if_neg hc]
        exact hs
  · simp only [book_hold]
    cases hf : findHold st.holds hid sid with
    | none =>
      cases hb : st.bookings.find?
          (fun b => b.booking_id == hid && b.show_id == sid) with
      | none => exact hinv
      | some b => exact hinv
    | some hold =>
      dsimp only
      split_ifs with hc1 hc2
      · exact state_invariant_cleanup st hold hinv
      · exact hinv
      · show state_invariant { st with seats := _, holds := _, bookings := _ } = true
        unfold state_invariant
        dsimp only
        apply all_seat_invariant_map _ _ _ hinv
        intro s hs
        by_cases hc : seatMatches sid hold.seat_ids s = true
        · rw [if_pos hc]; rfl
        · rw [if_neg hc]
          exact hs
  · unfold release_hold
    cases hf : findHold st.holds hid sid with
    | none => exact hinv
    | some hold => exact state_invariant_cleanup st hold hinv
  · unfold cleanup_expired_holds
    exact state_invariant_foldl_cleanup _ st hinv
  · unfold reset_all_seats state_invariant
    dsimp only
    apply all_seat_invariant_map _ _ _ hinv
    intro s _
    rfl

/-- Witness for C6 on the invariant-satisfying store stC6. -/
theorem C6_seat_field_invariant_preserved_witness :
    state_invariant (hold_seats stC6 "s1" ["A2"] 60 0 5).2 = true ∧
    state_invariant (book_hold stC6 "s1" 3 0 0).2 = true ∧
    state_invariant (release_hold stC6 "s1" 3).2 = true ∧
    state_invariant (cleanup_expired_holds stC6 200).2 = true ∧
    state_invariant (reset_all_seats stC6).2 = true :=
  C6_seat_field_invariant_preserved stC6 "s1" ["A2"] 60 0 5 3 0 0 200 (by decide)

end AtomicSeats
